import Mathlib

/-!
Shallow embedding of the sensor / alerting / dashboard / conversation logic of
the cement-plant digital-twin backend.

Python floats are modelled as exact rationals.  The builtin round(x, n) is
modelled as rounding to the nearest multiple of 10^(-n); Python uses
round-half-to-even on floats, which differs from Mathlib round only on exact
ties, and no property below depends on tie-breaking.  ISO timestamp strings
carried in payloads are dropped: no verified property reads them.  Epoch
seconds, where they feed alert-id strings, are an explicit integer parameter.
-/

namespace CementAI

/-- Model of Python round(x, 2): nearest multiple of 1/100. -/
def round2 (x : ℚ) : ℚ := (round (100 * x) : ℤ) / 100

/-- Model of Python round(x, 1): nearest multiple of 1/10. -/
def round1 (x : ℚ) : ℚ := (round (10 * x) : ℤ) / 10

/-- Model of Python round(x, 0) / round(x): nearest integer. -/
def round0 (x : ℚ) : ℚ := (round x : ℤ)

namespace Simple

/-! Embedding of src/backend/main_simple_fixed.py. -/

/-- One entry of the SENSORS dict of main_simple_fixed.py (no critical bound
in this variant). -/
structure SensorConfig where
  name : String
  unit : String
  min : ℚ
  max : ℚ
  optimal : ℚ
deriving DecidableEq

/-- The 14 keys of the SENSORS dict of main_simple_fixed.py, in dict
insertion order. -/
inductive SensorId
  | temp1
  | temp2
  | temp3
  | burning
  | cooler
  | load
  | vibration
  | emission
  | particleEmission
  | millFeed
  | millPressure
  | millParticle
  | millEff
  | stackFlow
deriving DecidableEq, Fintype

/-- The Python dict key string of each sensor. -/
def sensorKey : SensorId → String
  | .temp1 => "temp1"
  | .temp2 => "temp2"
  | .temp3 => "temp3"
  | .burning => "burning"
  | .cooler => "cooler"
  | .load => "load"
  | .vibration => "vibration"
  | .emission => "emission"
  | .particleEmission => "particle-emission"
  | .millFeed => "mill-feed"
  | .millPressure => "mill-pressure"
  | .millParticle => "mill-particle"
  | .millEff => "mill-eff"
  | .stackFlow => "stack-flow"

/-- SENSORS table of main_simple_fixed.py (lines 57-72). -/
def SENSORS : SensorId → SensorConfig
  | .temp1 => ⟨"Preheater Temperature", "°C", 1200, 1300, 1245⟩
  | .temp2 => ⟨"Calciner Temperature", "°C", 1300, 1400, 1350⟩
  | .temp3 => ⟨"Kiln Inlet Temperature", "°C", 1000, 1200, 1120⟩
  | .burning => ⟨"Burning Zone Temperature", "°C", 1400, 1500, 1450⟩
  | .cooler => ⟨"Cooler Temperature", "°C", 150, 250, 180⟩
  | .load => ⟨"Motor Load", "%", 70, 100, 87⟩
  | .vibration => ⟨"Kiln Vibration", "mm/s", 1.5, 4.0, 2.3⟩
  | .emission => ⟨"NOx Emissions", "mg/Nm³", 200, 300, 245⟩
  | .particleEmission => ⟨"Particulate Emissions", "mg/Nm³", 30, 60, 45⟩
  | .millFeed => ⟨"Mill Feed Rate", "t/h", 10, 15, 12.4⟩
  | .millPressure => ⟨"Mill Pressure", "bar", 1.5, 2.5, 2.1⟩
  | .millParticle => ⟨"Particle Size", "µm", 8, 16, 12⟩
  | .millEff => ⟨"Mill Efficiency", "%", 70, 90, 78⟩
  | .stackFlow => ⟨"Stack Gas Flow", "Nm³/h", 1000, 1500, 1250⟩

/-- The catalog in dict insertion order, as iterated by the endpoints. -/
def sensorList : List SensorId :=
  [.temp1, .temp2, .temp3, .burning, .cooler, .load, .vibration, .emission,
   .particleEmission, .millFeed, .millPressure, .millParticle, .millEff, .stackFlow]

/-- The reading payload built by generate_sensor_value of
main_simple_fixed.py (timestamp field dropped). -/
structure Reading where
  value : ℚ
  unit : String
  trend : String
  status : String
deriving DecidableEq

/-- The clamped pre-rounding value of generate_sensor_value
(main_simple_fixed.py lines 74-102).  noise models the random.uniform draw
in plus-minus 5 percent of (max - min). -/
def clampedValue (sensor_id : SensorId) (base_value : Option ℚ) (noise : ℚ) : ℚ :=
  let config := SENSORS sensor_id
  let base := base_value.getD config.optimal
  max config.min (min config.max (base + noise))

/-- generate_sensor_value of main_simple_fixed.py (lines 74-102).  The
random.uniform(-variation, variation) draw is the explicit noise argument. -/
def generate_sensor_value (sensor_id : SensorId) (base_value : Option ℚ) (noise : ℚ) :
    Reading :=
  let config := SENSORS sensor_id
  let variation := (config.max - config.min) * 0.05
  let value := clampedValue sensor_id base_value noise
  let trend :=
    if value > config.optimal * 1.1 then "up"
    else if value < config.optimal * 0.9 then "down"
    else "stable"
  { value := round2 value
    unit := config.unit
    trend := trend
    status := if |value - config.optimal| < variation then "normal" else "warning" }

/-- The process-wide sensor_data_store map. -/
abbrev Store := SensorId → Reading

/-- The startup store sensor_data_store = generate_all_sensor_data() with a
given per-sensor noise draw. -/
def generate_all_sensor_data (noise : SensorId → ℚ) : Store :=
  fun sensor_id => generate_sensor_value sensor_id none (noise sensor_id)

/-- GET /api/sensors (lines 143-157): regenerates every sensor from its
stored value, stores the result, and returns the updated store as the
response data.  Result is (response data, post store); both are the updated
map. -/
def get_sensor_data (store : Store) (noise : SensorId → ℚ) : Store × Store :=
  let updated : Store :=
    fun sensor_id => generate_sensor_value sensor_id (some (store sensor_id).value) (noise sensor_id)
  (updated, updated)

/-- GET /api/sensors/{id} (lines 159-169): returns the stored reading
verbatim; the store is not touched.  (The 404 branch for an unknown id is
outside this typed embedding.) -/
def get_specific_sensor (store : Store) (sensor_id : SensorId) : Reading × Store :=
  (store sensor_id, store)

/-- One alert record of main_simple_fixed.py (timestamp dropped; the epoch
second that feeds the id string is the t argument of get_alerts). -/
structure Alert where
  id : String
  type : String
  sensor : String
  message : String
  severity : String
deriving DecidableEq

/-- The loop body of GET /api/alerts (lines 236-257): the alerts one sensor
contributes, from its stored reading. -/
def alertsFor (store : Store) (t : ℤ) (sensor_id : SensorId) : List Alert :=
  let config := SENSORS sensor_id
  let value := (store sensor_id).value
  if value > config.optimal * 1.15 then
    [{ id := "alert_" ++ sensorKey sensor_id ++ "_" ++ toString t
       type := "warning"
       sensor := sensorKey sensor_id
       message := config.name ++ " is above optimal range: " ++ toString value ++ " " ++ config.unit
       severity := "medium" }]
  else if value < config.optimal * 0.85 then
    [{ id := "alert_" ++ sensorKey sensor_id ++ "_" ++ toString t
       type := "warning"
       sensor := sensorKey sensor_id
       message := config.name ++ " is below optimal range: " ++ toString value ++ " " ++ config.unit
       severity := "medium" }]
  else []

/-- GET /api/alerts (lines 230-264): scans the stored readings without
regenerating them; t models int(time.time()).  Returns (alerts, post store);
the store is returned unchanged. -/
def get_alerts (store : Store) (t : ℤ) : List Alert × Store :=
  (sensorList.flatMap (alertsFor store t), store)

/-- Response of POST /api/sensors/{id}/calibrate. -/
inductive CalibrateResponse
  | ok (message : String) (data : Reading)
  | badRequest (detail : String)
deriving DecidableEq

/-- The reading carried by a successful calibration response, if any. -/
def CalibrateResponse.responseData : CalibrateResponse → Option Reading
  | .ok _ data => some data
  | .badRequest _ => none

/-- POST /api/sensors/{id}/calibrate (lines 266-286): 400 if the target is
outside the nominal band, otherwise the store entry is replaced by
generate_sensor_value(sensor_id, target_value) - the noise draw applies
immediately, in the calibration response itself.  Result is
(response, post store). -/
def calibrate_sensor (store : Store) (sensor_id : SensorId) (target_value : ℚ)
    (noise : ℚ) : CalibrateResponse × Store :=
  let config := SENSORS sensor_id
  if target_value < config.min ∨ target_value > config.max then
    (.badRequest ("Target value must be between " ++ toString config.min ++
      " and " ++ toString config.max), store)
  else
    let reading := generate_sensor_value sensor_id (some target_value) noise
    (.ok ("Sensor " ++ sensorKey sensor_id ++ " calibrated to " ++
        toString target_value ++ " " ++ config.unit) reading,
      fun j => if j = sensor_id then reading else store j)

/-- The summary object of GET /api/dashboard/summary (lines 288-314).  The
random energy/co2 fields and the static uptime string, read by no claim,
are dropped. -/
structure Summary where
  overall_efficiency : ℚ
  production_rate_daily : ℚ
  active_alerts : ℕ
  system_status : String
deriving DecidableEq

/-- GET /api/dashboard/summary (lines 288-314): mean of the mill-eff and
load values rounded to one decimal, daily production, alert count from
get_alerts on the same store, and the operational/warning flag. -/
def get_dashboard_summary (store : Store) (t : ℤ) : Summary :=
  let avg_efficiency := ((store .millEff).value + (store .load).value) / 2
  let alert_count := (get_alerts store t).1.length
  { overall_efficiency := round1 avg_efficiency
    production_rate_daily := round0 ((store .millFeed).value * 24)
    active_alerts := alert_count
    system_status := if alert_count < 3 then "operational" else "warning" }

/-- The startup store with every noise draw zero: each sensor reads exactly
its optimal value (the optimal bounds are all multiples of 1/100, so round2
fixes them). -/
def initStore : Store := generate_all_sensor_data (fun _ => 0)

/-- initStore with the mill-eff reading replaced by a two-decimal value just
off a tenth, separating the rounded mean from the exact mean. -/
def storeEff : Store := fun sid =>
  if sid = SensorId.millEff then ⟨78.01, "%", "stable", "normal"⟩ else initStore sid

/-- A store whose temp1 reading carries a status string the generator never
produces; the single-sensor endpoint returns it verbatim. -/
def storeBroken : Store := fun sid =>
  if sid = SensorId.temp1 then ⟨1250, "°C", "stable", "broken"⟩ else initStore sid

/-- initStore with the cooler reading regenerated from base 250, high enough
to raise a warning alert. -/
def storeCooler : Store := fun sid =>
  if sid = SensorId.cooler then generate_sensor_value SensorId.cooler (some 250) 0
  else initStore sid

end Simple

namespace Updated

/-! Embedding of src/backend/main_updated.py, the richer variant. -/

/-- One entry of the SENSORS dict of main_updated.py, with the critical
bound. -/
structure SensorConfig where
  name : String
  unit : String
  min : ℚ
  max : ℚ
  optimal : ℚ
  critical : ℚ
deriving DecidableEq

/-- The 17 keys of the SENSORS dict of main_updated.py, in dict insertion
order. -/
inductive SensorId
  | temp1
  | temp2
  | temp3
  | burning
  | cooler
  | load
  | vibration
  | emission
  | particleEmission
  | millFeed
  | millPressure
  | millParticle
  | millEff
  | stackFlow
  | fuelRate
  | oxygen
  | coLevel
deriving DecidableEq, Fintype

/-- The Python dict key string of each sensor. -/
def sensorKey : SensorId → String
  | .temp1 => "temp1"
  | .temp2 => "temp2"
  | .temp3 => "temp3"
  | .burning => "burning"
  | .cooler => "cooler"
  | .load => "load"
  | .vibration => "vibration"
  | .emission => "emission"
  | .particleEmission => "particle-emission"
  | .millFeed => "mill-feed"
  | .millPressure => "mill-pressure"
  | .millParticle => "mill-particle"
  | .millEff => "mill-eff"
  | .stackFlow => "stack-flow"
  | .fuelRate => "fuel-rate"
  | .oxygen => "oxygen"
  | .coLevel => "co-level"

/-- SENSORS table of main_updated.py (lines 109-127).  Note mill-eff: its
critical bound 60 is below its optimal 78. -/
def SENSORS : SensorId → SensorConfig
  | .temp1 => ⟨"Preheater Temperature", "°C", 1200, 1300, 1245, 1350⟩
  | .temp2 => ⟨"Calciner Temperature", "°C", 1300, 1400, 1350, 1450⟩
  | .temp3 => ⟨"Kiln Inlet Temperature", "°C", 1000, 1200, 1120, 1250⟩
  | .burning => ⟨"Burning Zone Temperature", "°C", 1400, 1500, 1450, 1600⟩
  | .cooler => ⟨"Cooler Temperature", "°C", 150, 250, 180, 300⟩
  | .load => ⟨"Motor Load", "%", 70, 100, 87, 105⟩
  | .vibration => ⟨"Kiln Vibration", "mm/s", 1.5, 4.0, 2.3, 5.0⟩
  | .emission => ⟨"NOx Emissions", "mg/Nm³", 200, 300, 245, 500⟩
  | .particleEmission => ⟨"Particulate Emissions", "mg/Nm³", 30, 60, 45, 100⟩
  | .millFeed => ⟨"Mill Feed Rate", "t/h", 10, 15, 12.4, 18⟩
  | .millPressure => ⟨"Mill Pressure", "bar", 1.5, 2.5, 2.1, 3.0⟩
  | .millParticle => ⟨"Particle Size", "µm", 8, 16, 12, 20⟩
  | .millEff => ⟨"Mill Efficiency", "%", 70, 90, 78, 60⟩
  | .stackFlow => ⟨"Stack Gas Flow", "Nm³/h", 1000, 1500, 1250, 1800⟩
  | .fuelRate => ⟨"Fuel Feed Rate", "kg/h", 500, 800, 650, 900⟩
  | .oxygen => ⟨"Oxygen Level", "%", 2.0, 4.5, 3.2, 6.0⟩
  | .coLevel => ⟨"CO Level", "ppm", 50, 200, 100, 500⟩

/-- The catalog in dict insertion order. -/
def sensorList : List SensorId :=
  [.temp1, .temp2, .temp3, .burning, .cooler, .load, .vibration, .emission,
   .particleEmission, .millFeed, .millPressure, .millParticle, .millEff,
   .stackFlow, .fuelRate, .oxygen, .coLevel]

/-- The reading payload of generate_sensor_value of main_updated.py
(timestamp dropped; the echoed optimal and critical bounds kept). -/
structure Reading where
  value : ℚ
  unit : String
  trend : String
  status : String
  optimal : ℚ
  critical : ℚ
deriving DecidableEq

/-- The clamped pre-rounding value of generate_sensor_value
(main_updated.py lines 129-169): base plus the uniform noise draw plus the
small drift draw, clamped to the relaxed band [0.8 min, 1.2 max]. -/
def clampedValue (sensor_id : SensorId) (base_value : Option ℚ) (noise drift : ℚ) : ℚ :=
  let config := SENSORS sensor_id
  let base := base_value.getD config.optimal
  max (config.min * 0.8) (min (config.max * 1.2) (base + noise + drift))

/-- generate_sensor_value of main_updated.py (lines 129-169).  noise models
random.uniform(-variation, variation) and drift models
random.uniform(-0.1, 0.1); both are explicit arguments. -/
def generate_sensor_value (sensor_id : SensorId) (base_value : Option ℚ)
    (noise drift : ℚ) : Reading :=
  let config := SENSORS sensor_id
  let variation := (config.max - config.min) * 0.05
  let value := clampedValue sensor_id base_value noise drift
  let st :=
    if value > config.critical then ("critical", "up")
    else if value > config.optimal * 1.15 then ("warning", "up")
    else if value < config.optimal * 0.85 then ("warning", "down")
    else ("normal", "stable")
  let trend := if |value - config.optimal| < variation * 0.5 then "stable" else st.2
  { value := round2 value
    unit := config.unit
    trend := trend
    status := st.1
    optimal := config.optimal
    critical := config.critical }

/-- The process-wide sensor_data_store map of main_updated.py. -/
abbrev Store := SensorId → Reading

/-- One enhanced alert record (lines 1353-1397); the timestamp field is
dropped, the epoch second feeding the id string is the t argument. -/
structure Alert where
  id : String
  type : String
  sensor : String
  sensor_name : String
  message : String
  severity : String
deriving DecidableEq

/-- GET /api/alerts of main_updated.py (get_enhanced_alerts, lines
1353-1397): driven by the stored status field, not recomputed from the
value; t models int(time.time()). -/
def get_enhanced_alerts (store : Store) (t : ℤ) : List Alert :=
  sensorList.flatMap fun sensor_id =>
    let config := SENSORS sensor_id
    let data := store sensor_id
    if data.status = "critical" then
      [{ id := "critical_" ++ sensorKey sensor_id ++ "_" ++ toString t
         type := "critical"
         sensor := sensorKey sensor_id
         sensor_name := config.name
         message := "CRITICAL: " ++ config.name ++ " at " ++ toString data.value ++
           " " ++ config.unit ++ " exceeds safe limits"
         severity := "critical" }]
    else if data.status = "warning" then
      [{ id := "warning_" ++ sensorKey sensor_id ++ "_" ++ toString t
         type := "warning"
         sensor := sensorKey sensor_id
         sensor_name := config.name
         message := "WARNING: " ++ config.name ++ " at " ++ toString data.value ++
           " " ++ config.unit ++ " outside optimal range"
         severity := "medium" }]
    else []

/-- The summary block attached to the alerts response (lines 1392-1396). -/
def alertsSummary (alerts : List Alert) : ℕ × ℕ × ℕ :=
  (alerts.length,
   (alerts.filter (fun a => a.severity = "critical")).length,
   (alerts.filter (fun a => a.severity = "medium")).length)

/-- The summary object of GET /api/dashboard/summary of main_updated.py
(get_enhanced_dashboard_summary, lines 1399-1448); the random
energy/co2/performance fields and static strings, read by no claim, are
dropped. -/
structure Summary where
  overall_efficiency : ℚ
  production_rate_daily : ℚ
  active_alerts : ℕ
  critical_alerts : ℕ
  system_status : String
deriving DecidableEq

/-- get_enhanced_dashboard_summary (lines 1399-1448): mean of the mill-eff
and load values rounded to one decimal; system_status is critical when the
critical count is positive, else warning when the medium-severity count
exceeds two, else normal. -/
def get_enhanced_dashboard_summary (store : Store) (t : ℤ) : Summary :=
  let avg_efficiency := ((store .millEff).value + (store .load).value) / 2
  let s := alertsSummary (get_enhanced_alerts store t)
  { overall_efficiency := round1 avg_efficiency
    production_rate_daily := round0 ((store .millFeed).value * 24)
    active_alerts := s.1
    critical_alerts := s.2.1
    system_status :=
      if s.2.1 > 0 then "critical" else if s.2.2 > 2 then "warning" else "normal" }

/-- The startup store with zero noise and drift draws: every sensor reads
exactly its optimal value. -/
def initStore : Store := fun sid => generate_sensor_value sid none 0 0

end Updated

namespace RAG

/-! Embedding of the conversation store of
src/backend/app/services/rag_service.py.  self.conversations is a Python
dict from conversation id to a list of ChatMessage; it is modelled as an
insertion-ordered association list.  Timestamps and the source-title
metadata on assistant messages are dropped: no claim reads them. -/

/-- A stored chat message (role and content). -/
structure ChatMessage where
  role : String
  content : String
deriving DecidableEq

/-- The self.conversations dict: insertion-ordered association list from
conversation id to message list. -/
abbrev Conversations := List (String × List ChatMessage)

/-- Dict lookup as used by conversations.get(cid, []) and the in operator. -/
def lookupConv (m : Conversations) (cid : String) : Option (List ChatMessage) :=
  List.lookup cid m

/-- The if cid not in self.conversations: self.conversations[cid] = [] step
of chat_with_plantgpt (rag_service.py lines 352-355). -/
def ensureConv (m : Conversations) (cid : String) : Conversations :=
  if (lookupConv m cid).isSome then m else m ++ [(cid, [])]

/-- self.conversations[cid].append(msg). -/
def appendMessage (m : Conversations) (cid : String) (msg : ChatMessage) :
    Conversations :=
  m.map fun p => if p.1 = cid then (p.1, p.2 ++ [msg]) else p

/-- The conversation-store effect of chat_with_plantgpt (rag_service.py
lines 348-400): ensure the conversation exists, append the user message,
then append the assistant message.  The LLM call in between only reads the
history; even on an LLM failure the caught handler returns an apology
string which is appended all the same. -/
def chat_with_plantgpt (m : Conversations) (cid : String)
    (message response_text : String) : Conversations :=
  appendMessage
    (appendMessage (ensureConv m cid) cid ⟨"user", message⟩)
    cid ⟨"assistant", response_text⟩

/-- get_conversation_history (rag_service.py lines 537-539):
self.conversations.get(conversation_id, []). -/
def get_conversation_history (m : Conversations) (cid : String) :
    List ChatMessage :=
  (lookupConv m cid).getD []

/-- clear_conversation (rag_service.py lines 541-544): delete the key only
when present; a missing key is a silent no-op. -/
def clear_conversation (m : Conversations) (cid : String) : Conversations :=
  if (lookupConv m cid).isSome then m.filter (fun p => p.1 ≠ cid) else m

/-- A sequence of chat calls on one conversation id, each carrying a user
message and the assistant reply. -/
def runChats (m : Conversations) (cid : String) (pairs : List (String × String)) :
    Conversations :=
  pairs.foldl (fun acc p => chat_with_plantgpt acc cid p.1 p.2) m

end RAG

/-! Helper lemmas about the rounding model. -/

/-- round is monotone on the rationals. -/
theorem round_mono_rat {x y : ℚ} (h : x ≤ y) : round x ≤ round y := by
  rw [round_eq, round_eq]
  exact Int.floor_le_floor (by linarith)

/-- round2 is monotone. -/
theorem round2_mono {x y : ℚ} (h : x ≤ y) : round2 x ≤ round2 y := by
  have h2 : round (100 * x) ≤ round (100 * y) := round_mono_rat (by linarith)
  have h3 : ((round (100 * x) : ℤ) : ℚ) ≤ ((round (100 * y) : ℤ) : ℚ) := by
    exact_mod_cast h2
  unfold round2
  linarith

/-- Rounding to two decimals does not cross an upper bound fixed by round2. -/
theorem round2_le_of_le {x hi : ℚ} (hfix : round2 hi = hi) (h : x ≤ hi) :
    round2 x ≤ hi := hfix ▸ round2_mono h

/-- Rounding to two decimals does not cross a lower bound fixed by round2. -/
theorem le_round2_of_le {x lo : ℚ} (hfix : round2 lo = lo) (h : lo ≤ x) :
    lo ≤ round2 x := hfix ▸ round2_mono h

/-- A clamp stays inside its own band, and two-decimal rounding keeps it
there when the band ends are multiples of 1/100 (so that round2 fixes
them). -/
theorem round2_clamp_band {lo hi x : ℚ} (hle : lo ≤ hi)
    (hlo : round2 lo = lo) (hhi : round2 hi = hi) :
    lo ≤ round2 (max lo (min hi x)) ∧ round2 (max lo (min hi x)) ≤ hi :=
  ⟨le_round2_of_le hlo (le_max_left _ _),
   round2_le_of_le hhi (max_le hle (min_le_left _ _))⟩

/-! Claim theorems. -/

/-- C1: for every sensor in the richer variant catalog and every reading of
generate_sensor_value, the status classifies the clamped pre-rounding value
as an exhaustive, non-overlapping partition: critical exactly when the value
exceeds the critical bound, warning exactly when it does not but deviates
more than 15 percent above or below optimal, normal exactly otherwise. -/
theorem updated_status_partition (sid : Updated.SensorId) (b : Option ℚ)
    (noise drift : ℚ) :
    ((Updated.generate_sensor_value sid b noise drift).status = "critical" ↔
      Updated.clampedValue sid b noise drift > (Updated.SENSORS sid).critical) ∧
    ((Updated.generate_sensor_value sid b noise drift).status = "warning" ↔
      (Updated.clampedValue sid b noise drift ≤ (Updated.SENSORS sid).critical ∧
        (Updated.clampedValue sid b noise drift > (Updated.SENSORS sid).optimal * 1.15 ∨
         Updated.clampedValue sid b noise drift < (Updated.SENSORS sid).optimal * 0.85))) ∧
    ((Updated.generate_sensor_value sid b noise drift).status = "normal" ↔
      (Updated.clampedValue sid b noise drift ≤ (Updated.SENSORS sid).critical ∧
        ¬(Updated.clampedValue sid b noise drift > (Updated.SENSORS sid).optimal * 1.15 ∨
          Updated.clampedValue sid b noise drift < (Updated.SENSORS sid).optimal * 0.85))) := by
  set v := Updated.clampedValue sid b noise drift with hv
  have hstat : (Updated.generate_sensor_value sid b noise drift).status =
      (if v > (Updated.SENSORS sid).critical then ("critical", "up")
       else if v > (Updated.SENSORS sid).optimal * 1.15 then ("warning", "up")
       else if v < (Updated.SENSORS sid).optimal * 0.85 then ("warning", "down")
       else ("normal", "stable")).1 := rfl
  rw [hstat]
  split_ifs with h1 h2 h3
  · exact ⟨iff_of_true rfl h1,
      iff_of_false (by decide) (fun hc => absurd h1 (not_lt.mpr hc.1)),
      iff_of_false (by decide) (fun hc => absurd h1 (not_lt.mpr hc.1))⟩
  · exact ⟨iff_of_false (by decide) h1,
      iff_of_true rfl ⟨le_of_not_lt h1, Or.inl h2⟩,
      iff_of_false (by decide) (fun hc => hc.2 (Or.inl h2))⟩
  · exact ⟨iff_of_false (by decide) h1,
      iff_of_true rfl ⟨le_of_not_lt h1, Or.inr h3⟩,
      iff_of_false (by decide) (fun hc => hc.2 (Or.inr h3))⟩
  · exact ⟨iff_of_false (by decide) h1,
      iff_of_false (by decide) (fun hc => hc.2.elim h2 h3),
      iff_of_true rfl ⟨le_of_not_lt h1, fun hor => hor.elim h2 h3⟩⟩

/-- C2: for every sensor, every previous value and every noise draw, the
returned value lies within the declared clamp band: [min, max] in the
simple variant, [0.8 min, 1.2 max] in the richer variant. -/
theorem generated_value_within_band :
    (∀ (sid : Simple.SensorId) (b : Option ℚ) (noise : ℚ),
      (Simple.SENSORS sid).min ≤ (Simple.generate_sensor_value sid b noise).value ∧
      (Simple.generate_sensor_value sid b noise).value ≤ (Simple.SENSORS sid).max) ∧
    (∀ (sid : Updated.SensorId) (b : Option ℚ) (noise drift : ℚ),
      (Updated.SENSORS sid).min * 0.8 ≤ (Updated.generate_sensor_value sid b noise drift).value ∧
      (Updated.generate_sensor_value sid b noise drift).value ≤ (Updated.SENSORS sid).max * 1.2) := by
  have hsimple : ∀ sid : Simple.SensorId,
      (Simple.SENSORS sid).min ≤ (Simple.SENSORS sid).max ∧
      round2 (Simple.SENSORS sid).min = (Simple.SENSORS sid).min ∧
      round2 (Simple.SENSORS sid).max = (Simple.SENSORS sid).max := by
    intro sid
    cases sid <;> norm_num [round2, Simple.SENSORS]
  have hupd : ∀ sid : Updated.SensorId,
      (Updated.SENSORS sid).min * 0.8 ≤ (Updated.SENSORS sid).max * 1.2 ∧
      round2 ((Updated.SENSORS sid).min * 0.8) = (Updated.SENSORS sid).min * 0.8 ∧
      round2 ((Updated.SENSORS sid).max * 1.2) = (Updated.SENSORS sid).max * 1.2 := by
    intro sid
    cases sid <;> norm_num [round2, Updated.SENSORS]
  constructor
  · intro sid b noise
    obtain ⟨hle, hlo, hhi⟩ := hsimple sid
    have hv : (Simple.generate_sensor_value sid b noise).value =
        round2 (max (Simple.SENSORS sid).min
          (min (Simple.SENSORS sid).max (b.getD (Simple.SENSORS sid).optimal + noise))) := rfl
    rw [hv]
    exact round2_clamp_band hle hlo hhi
  · intro sid b noise drift
    obtain ⟨hle, hlo, hhi⟩ := hupd sid
    have hv : (Updated.generate_sensor_value sid b noise drift).value =
        round2 (max ((Updated.SENSORS sid).min * 0.8)
          (min ((Updated.SENSORS sid).max * 1.2)
            (b.getD (Updated.SENSORS sid).optimal + noise + drift))) := rfl
    rw [hv]
    exact round2_clamp_band hle hlo hhi

/-- C3 counterexample: the calibration response does not reflect the target
exactly.  temp1 with target 1245 lies inside [1200, 1300]; with noise draw 5
(a legal draw, since the variation bound is 5) the response carries value
1250, not 1245: the generator noise applies to the calibration response
itself, not only to the next poll. -/
theorem calibrate_reflects_target_counterexample :
    (1200 : ℚ) ≤ 1245 ∧ (1245 : ℚ) ≤ 1300 ∧
    ((Simple.calibrate_sensor Simple.initStore Simple.SensorId.temp1 1245 5).1.responseData.map
      Simple.Reading.value = some 1250) ∧
    (1250 : ℚ) ≠ 1245 := by
  refine ⟨by norm_num, by norm_num, ?_, by norm_num⟩
  have hok : (Simple.calibrate_sensor Simple.initStore Simple.SensorId.temp1 1245 5).1.responseData =
      some (Simple.generate_sensor_value Simple.SensorId.temp1 (some 1245) 5) := by
    simp only [Simple.calibrate_sensor]
    rw [if_neg (by norm_num [Simple.SENSORS])]
    rfl
  rw [hok]
  have hval : (Simple.generate_sensor_value Simple.SensorId.temp1 (some 1245) 5).value = 1250 := by
    show round2 (Simple.clampedValue Simple.SensorId.temp1 (some 1245) 5) = 1250
    rw [show Simple.clampedValue Simple.SensorId.temp1 (some 1245) 5 = 1250 by
      norm_num [Simple.clampedValue, Simple.SENSORS]]
    rw [round2, round_eq]
    norm_num
  simp [hval]

/-- C3 amended: for every known sensor id the calibrate endpoint rejects a
target strictly outside [min, max] with a 400 and leaves the store
unchanged; for a target inside the band it succeeds, and the reading in the
response (also stored for that sensor, all others untouched) is the freshly
generated reading seeded at the target - the noise draw applies immediately
to the calibration response, so the response value is the target only up to
that draw, not exactly. -/
theorem calibrate_spec (store : Simple.Store) (sid : Simple.SensorId)
    (target noise : ℚ) :
    (target < (Simple.SENSORS sid).min ∨ target > (Simple.SENSORS sid).max →
      (∃ detail, (Simple.calibrate_sensor store sid target noise).1 =
        Simple.CalibrateResponse.badRequest detail) ∧
      (Simple.calibrate_sensor store sid target noise).2 = store) ∧
    ((Simple.SENSORS sid).min ≤ target → target ≤ (Simple.SENSORS sid).max →
      (Simple.calibrate_sensor store sid target noise).1.responseData =
        some (Simple.generate_sensor_value sid (some target) noise) ∧
      (Simple.calibrate_sensor store sid target noise).2 sid =
        Simple.generate_sensor_value sid (some target) noise ∧
      ∀ j, j ≠ sid → (Simple.calibrate_sensor store sid target noise).2 j = store j) := by
  constructor
  · intro h
    simp only [Simple.calibrate_sensor]
    rw [if_pos h]
    exact ⟨⟨_, rfl⟩, rfl⟩
  · intro h1 h2
    have hcond : ¬(target < (Simple.SENSORS sid).min ∨ target > (Simple.SENSORS sid).max) := by
      push_neg
      exact ⟨h1, h2⟩
    simp only [Simple.calibrate_sensor]
    rw [if_neg hcond]
    refine ⟨rfl, ?_, ?_⟩
    · simp
    · intro j hj
      simp [hj]

/-- C3 witness: concrete runs of both branches of calibrate_spec on temp1:
target 1500 is rejected with the store untouched, target 1245 succeeds with
the freshly generated reading stored and returned. -/
theorem calibrate_spec_witness :
    ((∃ detail, (Simple.calibrate_sensor Simple.initStore Simple.SensorId.temp1 1500 0).1 =
        Simple.CalibrateResponse.badRequest detail) ∧
      (Simple.calibrate_sensor Simple.initStore Simple.SensorId.temp1 1500 0).2 =
        Simple.initStore) ∧
    ((Simple.calibrate_sensor Simple.initStore Simple.SensorId.temp1 1245 5).1.responseData =
        some (Simple.generate_sensor_value Simple.SensorId.temp1 (some 1245) 5) ∧
      (Simple.calibrate_sensor Simple.initStore Simple.SensorId.temp1 1245 5).2
          Simple.SensorId.temp1 =
        Simple.generate_sensor_value Simple.SensorId.temp1 (some 1245) 5 ∧
      ∀ j, j ≠ Simple.SensorId.temp1 →
        (Simple.calibrate_sensor Simple.initStore Simple.SensorId.temp1 1245 5).2 j =
          Simple.initStore j) :=
  ⟨(calibrate_spec Simple.initStore Simple.SensorId.temp1 1500 0).1
      (Or.inr (by norm_num [Simple.SENSORS])),
   (calibrate_spec Simple.initStore Simple.SensorId.temp1 1245 5).2
      (by norm_num [Simple.SENSORS]) (by norm_num [Simple.SENSORS])⟩

/-- Rounding to one decimal moves a value by at most 1/20. -/
theorem abs_round1_sub_le (x : ℚ) : |round1 x - x| ≤ 1 / 20 := by
  have h := abs_sub_round (10 * x)
  rw [abs_sub_comm, abs_le] at h
  unfold round1
  rw [abs_le]
  exact ⟨by linarith [h.1], by linarith [h.2]⟩

/-- The value of the zero-noise initial reading of the simple variant is
exactly the optimal bound. -/
theorem simple_initStore_value (sid : Simple.SensorId) :
    (Simple.initStore sid).value = (Simple.SENSORS sid).optimal := by
  have hv : (Simple.initStore sid).value =
      round2 (max (Simple.SENSORS sid).min
        (min (Simple.SENSORS sid).max ((Simple.SENSORS sid).optimal + 0))) := rfl
  rw [hv, round2, round_eq]
  cases sid <;> norm_num [Simple.SENSORS]

/-- C4 counterexample: the dashboard overall_efficiency is the rounded
mean, not the exact mean.  With mill-eff stored at 78.01 and load at 87 the
exact mean is 82.505 but the summary reports 82.5. -/
theorem dashboard_efficiency_counterexample :
    (Simple.storeEff Simple.SensorId.millEff).value = 78.01 ∧
    (Simple.storeEff Simple.SensorId.load).value = 87 ∧
    (Simple.get_dashboard_summary Simple.storeEff 0).overall_efficiency = 82.5 ∧
    ((Simple.storeEff Simple.SensorId.millEff).value +
      (Simple.storeEff Simple.SensorId.load).value) / 2 = 82.505 ∧
    (82.5 : ℚ) ≠ 82.505 := by
  have h1 : (Simple.storeEff Simple.SensorId.millEff).value = 78.01 := rfl
  have h2 : (Simple.storeEff Simple.SensorId.load).value = 87 := by
    show (Simple.initStore Simple.SensorId.load).value = 87
    rw [simple_initStore_value]
    norm_num [Simple.SENSORS]
  refine ⟨h1, h2, ?_, by rw [h1, h2]; norm_num, by norm_num⟩
  show round1 (((Simple.storeEff Simple.SensorId.millEff).value +
    (Simple.storeEff Simple.SensorId.load).value) / 2) = 82.5
  rw [h1, h2]
  rw [show ((78.01 : ℚ) + 87) / 2 = 82.505 by norm_num]
  rw [round1, round_eq]
  norm_num

/-- C4 amended: in both variants overall_efficiency is the arithmetic mean
of the mill-eff and load values rounded to one decimal (hence within 1/20
of the exact mean, and equal to it exactly when the mean is a one-decimal
value); in particular mill-eff 78 and load 87 give exactly 82.5, the exact
mean. -/
theorem dashboard_efficiency_amended (store : Simple.Store) (t : ℤ)
    (store2 : Updated.Store) (t2 : ℤ) :
    ((Simple.get_dashboard_summary store t).overall_efficiency =
      round1 (((store Simple.SensorId.millEff).value +
        (store Simple.SensorId.load).value) / 2)) ∧
    (|(Simple.get_dashboard_summary store t).overall_efficiency -
      ((store Simple.SensorId.millEff).value +
        (store Simple.SensorId.load).value) / 2| ≤ 1 / 20) ∧
    ((store Simple.SensorId.millEff).value = 78 →
      (store Simple.SensorId.load).value = 87 →
      (Simple.get_dashboard_summary store t).overall_efficiency = 82.5 ∧
      ((store Simple.SensorId.millEff).value +
        (store Simple.SensorId.load).value) / 2 = 82.5) ∧
    ((Updated.get_enhanced_dashboard_summary store2 t2).overall_efficiency =
      round1 (((store2 Updated.SensorId.millEff).value +
        (store2 Updated.SensorId.load).value) / 2)) ∧
    ((store2 Updated.SensorId.millEff).value = 78 →
      (store2 Updated.SensorId.load).value = 87 →
      (Updated.get_enhanced_dashboard_summary store2 t2).overall_efficiency = 82.5) := by
  have hround : round1 (((78 : ℚ) + 87) / 2) = 82.5 := by
    rw [show ((78 : ℚ) + 87) / 2 = 82.5 by norm_num]
    rw [round1, round_eq]
    norm_num
  refine ⟨rfl, abs_round1_sub_le _, ?_, rfl, ?_⟩
  · intro h1 h2
    constructor
    · show round1 (((store Simple.SensorId.millEff).value +
        (store Simple.SensorId.load).value) / 2) = 82.5
      rw [h1, h2, hround]
    · rw [h1, h2]
      norm_num
  · intro h1 h2
    show round1 (((store2 Updated.SensorId.millEff).value +
      (store2 Updated.SensorId.load).value) / 2) = 82.5
    rw [h1, h2, hround]

/-- The value of the zero-noise initial reading of the richer variant is
exactly the optimal bound. -/
theorem upd_initStore_value (sid : Updated.SensorId) :
    (Updated.initStore sid).value = (Updated.SENSORS sid).optimal := by
  have hv : (Updated.initStore sid).value =
      round2 (max ((Updated.SENSORS sid).min * 0.8)
        (min ((Updated.SENSORS sid).max * 1.2) ((Updated.SENSORS sid).optimal + 0 + 0))) := rfl
  rw [hv, round2, round_eq]
  cases sid <;> norm_num [Updated.SENSORS]

/-- C4 witness: the seeded end-to-end scenario.  The zero-noise startup
stores hold mill-eff 78 and load 87 exactly, and both dashboard summaries
report overall_efficiency 82.5, the exact mean. -/
theorem dashboard_efficiency_amended_witness :
    (Simple.get_dashboard_summary Simple.initStore 0).overall_efficiency = 82.5 ∧
    ((Simple.initStore Simple.SensorId.millEff).value +
      (Simple.initStore Simple.SensorId.load).value) / 2 = 82.5 ∧
    (Updated.get_enhanced_dashboard_summary Updated.initStore 0).overall_efficiency = 82.5 := by
  have h1 : (Simple.initStore Simple.SensorId.millEff).value = 78 := by
    rw [simple_initStore_value]
    norm_num [Simple.SENSORS]
  have h2 : (Simple.initStore Simple.SensorId.load).value = 87 := by
    rw [simple_initStore_value]
    norm_num [Simple.SENSORS]
  have h3 : (Updated.initStore Updated.SensorId.millEff).value = 78 := by
    rw [upd_initStore_value]
    norm_num [Updated.SENSORS]
  have h4 : (Updated.initStore Updated.SensorId.load).value = 87 := by
    rw [upd_initStore_value]
    norm_num [Updated.SENSORS]
  obtain ⟨ha, hb⟩ :=
    (dashboard_efficiency_amended Simple.initStore 0 Updated.initStore 0).2.2.1 h1 h2
  exact ⟨ha, hb,
    (dashboard_efficiency_amended Simple.initStore 0 Updated.initStore 0).2.2.2.2 h3 h4⟩

/-- The status of the zero-noise initial reading of the richer variant:
normal everywhere except mill-eff, whose optimal value 78 already exceeds
its critical bound 60, so the generator marks it critical at optimal. -/
theorem upd_initStore_status (sid : Updated.SensorId) :
    (Updated.initStore sid).status =
      if sid = Updated.SensorId.millEff then "critical" else "normal" := by
  have hstat : (Updated.initStore sid).status =
      (if Updated.clampedValue sid none 0 0 > (Updated.SENSORS sid).critical then ("critical", "up")
       else if Updated.clampedValue sid none 0 0 > (Updated.SENSORS sid).optimal * 1.15 then ("warning", "up")
       else if Updated.clampedValue sid none 0 0 < (Updated.SENSORS sid).optimal * 0.85 then ("warning", "down")
       else ("normal", "stable")).1 := rfl
  rw [hstat]
  cases sid <;> norm_num [Updated.clampedValue, Updated.SENSORS] <;> simp

/-- C5 counterexample: a snapshot of the richer variant in which every
sensor reads exactly its optimal value, yet the alerts endpoint returns a
non-empty list: one critical alert, for mill-eff. -/
theorem alerts_at_optimal_counterexample :
    (∀ sid, (Updated.initStore sid).value = (Updated.SENSORS sid).optimal) ∧
    (Updated.get_enhanced_alerts Updated.initStore 0).map
      (fun a => (a.sensor, a.severity)) = [("mill-eff", "critical")] := by
  refine ⟨upd_initStore_value, ?_⟩
  simp only [Updated.get_enhanced_alerts, Updated.sensorList]
  simp [upd_initStore_status, Updated.sensorKey]

/-- C5 amended: in the simple variant, any snapshot with every value
exactly at optimal yields an empty alert list; in the richer variant, the
alerts endpoint keys off the stored status field, and the generator marks
mill-eff critical even at its optimal value (78 exceeds its critical bound
60), so the zero-noise all-optimal snapshot yields exactly one alert, a
critical one for mill-eff. -/
theorem alerts_at_optimal_amended (store : Simple.Store) (t t2 : ℤ)
    (h : ∀ sid, (store sid).value = (Simple.SENSORS sid).optimal) :
    (Simple.get_alerts store t).1 = [] ∧
    (Updated.get_enhanced_alerts Updated.initStore t2).map
      (fun a => (a.sensor, a.severity)) = [("mill-eff", "critical")] := by
  constructor
  · have hfst : (Simple.get_alerts store t).1 =
        Simple.sensorList.flatMap (Simple.alertsFor store t) := rfl
    rw [hfst, List.flatMap_eq_nil_iff]
    intro sid hsid
    have hbody : Simple.alertsFor store t sid =
        (if (store sid).value > (Simple.SENSORS sid).optimal * 1.15 then
          [{ id := "alert_" ++ Simple.sensorKey sid ++ "_" ++ toString t
             type := "warning"
             sensor := Simple.sensorKey sid
             message := (Simple.SENSORS sid).name ++ " is above optimal range: " ++
               toString (store sid).value ++ " " ++ (Simple.SENSORS sid).unit
             severity := "medium" }]
        else if (store sid).value < (Simple.SENSORS sid).optimal * 0.85 then
          [{ id := "alert_" ++ Simple.sensorKey sid ++ "_" ++ toString t
             type := "warning"
             sensor := Simple.sensorKey sid
             message := (Simple.SENSORS sid).name ++ " is below optimal range: " ++
               toString (store sid).value ++ " " ++ (Simple.SENSORS sid).unit
             severity := "medium" }]
        else []) := rfl
    rw [hbody, h sid]
    have hno : ¬((Simple.SENSORS sid).optimal > (Simple.SENSORS sid).optimal * 1.15) ∧
        ¬((Simple.SENSORS sid).optimal < (Simple.SENSORS sid).optimal * 0.85) := by
      cases sid <;> norm_num [Simple.SENSORS]
    rw [if_neg hno.1, if_neg hno.2]
  · simp only [Updated.get_enhanced_alerts, Updated.sensorList]
    simp [upd_initStore_status, Updated.sensorKey]

/-- C5 witness: the zero-noise simple-variant startup store has every value
at optimal and yields no alerts; the richer variant at optimal yields the
single critical mill-eff alert. -/
theorem alerts_at_optimal_witness :
    (Simple.get_alerts Simple.initStore 0).1 = [] ∧
    (Updated.get_enhanced_alerts Updated.initStore 0).map
      (fun a => (a.sensor, a.severity)) = [("mill-eff", "critical")] :=
  alerts_at_optimal_amended Simple.initStore 0 0 simple_initStore_value

/-- Every enhanced alert carries severity critical or medium: the two
emitting branches write exactly those two strings. -/
theorem enhanced_alert_severity (store : Updated.Store) (t : ℤ) :
    ∀ a ∈ Updated.get_enhanced_alerts store t,
      a.severity = "critical" ∨ a.severity = "medium" := by
  intro a ha
  simp only [Updated.get_enhanced_alerts, List.mem_flatMap] at ha
  obtain ⟨sid, _, hmem⟩ := ha
  split_ifs at hmem <;> simp only [List.mem_singleton, List.not_mem_nil] at hmem
  · subst hmem
    exact Or.inl rfl
  · subst hmem
    exact Or.inr rfl

/-- When every list element has one of two severities, the two filtered
lengths add up to the full length. -/
theorem severity_filter_partition (l : List Updated.Alert)
    (h : ∀ a ∈ l, a.severity = "critical" ∨ a.severity = "medium") :
    (l.filter (fun a => a.severity = "critical")).length +
      (l.filter (fun a => a.severity = "medium")).length = l.length := by
  induction l with
  | nil => rfl
  | cons x xs ih =>
    have hx := h x (List.mem_cons_self x xs)
    have ih2 := ih (fun a ha => h a (List.mem_cons_of_mem _ ha))
    rcases hx with hx | hx <;>
      simp only [List.filter_cons, hx, List.length_cons] <;>
      simp <;> omega

/-- C6: the enhanced dashboard system_status is critical when at least one
critical alert exists, else warning when the total alert count exceeds two,
else normal.  (The code tests the medium-severity count, but with no
critical alerts that count equals the total.) -/
theorem system_status_thresholds (store : Updated.Store) (t : ℤ) :
    (Updated.get_enhanced_dashboard_summary store t).system_status =
      (if 0 < ((Updated.get_enhanced_alerts store t).filter
          (fun a => a.severity = "critical")).length then "critical"
       else if 2 < (Updated.get_enhanced_alerts store t).length then "warning"
       else "normal") := by
  have hpart := severity_filter_partition (Updated.get_enhanced_alerts store t)
    (enhanced_alert_severity store t)
  have hstat : (Updated.get_enhanced_dashboard_summary store t).system_status =
      (if ((Updated.get_enhanced_alerts store t).filter
          (fun a => a.severity = "critical")).length > 0 then "critical"
       else if ((Updated.get_enhanced_alerts store t).filter
          (fun a => a.severity = "medium")).length > 2 then "warning"
       else "normal") := rfl
  rw [hstat]
  by_cases h0 : 0 < ((Updated.get_enhanced_alerts store t).filter
      (fun a => a.severity = "critical")).length
  · rw [if_pos h0, if_pos h0]
  · rw [if_neg h0, if_neg h0]
    have hzero : ((Updated.get_enhanced_alerts store t).filter
        (fun a => a.severity = "critical")).length = 0 := by omega
    have heq : ((Updated.get_enhanced_alerts store t).filter
        (fun a => a.severity = "medium")).length =
        (Updated.get_enhanced_alerts store t).length := by omega
    rw [heq]

/-- The values of the store whose cooler was calibrated to 250: 250 for the
cooler, optimal elsewhere. -/
theorem storeCooler_value (sid : Simple.SensorId) :
    (Simple.storeCooler sid).value =
      if sid = Simple.SensorId.cooler then 250 else (Simple.SENSORS sid).optimal := by
  have hcool : (Simple.storeCooler Simple.SensorId.cooler).value = 250 := by
    have hv : (Simple.storeCooler Simple.SensorId.cooler).value =
        round2 (max (150:ℚ) (min 250 (250 + 0))) := rfl
    rw [hv, round2, round_eq]
    norm_num
  cases sid
  case cooler => simpa using hcool
  all_goals simp [Simple.storeCooler, simple_initStore_value]

/-- C7 counterexample: one concrete second.  With the cooler reading at 250
(above 1.15 times its optimal 180), GET /api/alerts emits exactly one alert
whose id is the sensor key plus the epoch second; the endpoint does not
touch the store, so a second evaluation within the same second returns the
very same alert list - the two ids for the cooler are equal, not
distinct. -/
theorem alert_id_collision_counterexample :
    ((Simple.get_alerts Simple.storeCooler 1758000000).1.map Simple.Alert.id =
      (Simple.get_alerts (Simple.get_alerts Simple.storeCooler 1758000000).2
        1758000000).1.map Simple.Alert.id) ∧
    (Simple.get_alerts Simple.storeCooler 1758000000).1.map Simple.Alert.id =
      ["alert_cooler_" ++ toString (1758000000 : ℤ)] := by
  constructor
  · rfl
  · simp [Simple.get_alerts, Simple.sensorList, Simple.alertsFor,
      storeCooler_value, Simple.sensorKey, Simple.SENSORS]
    norm_num

/-- C7 as it stands in the code: alert ids depend only on the sensor key
and the epoch second, so for every second t the warning for the cooler of a
first evaluation and of an immediately following second evaluation carry
the identical id alert_cooler_t; ids can differ only across different
seconds or sensors. -/
theorem alert_id_second_granularity (t : ℤ) :
    ((Simple.get_alerts Simple.storeCooler t).1.map Simple.Alert.id =
      ["alert_cooler_" ++ toString t]) ∧
    ((Simple.get_alerts (Simple.get_alerts Simple.storeCooler t).2 t).1 =
      (Simple.get_alerts Simple.storeCooler t).1) := by
  constructor
  · simp [Simple.get_alerts, Simple.sensorList, Simple.alertsFor,
      storeCooler_value, Simple.sensorKey, Simple.SENSORS]
    norm_num
  · rfl

/-- C9 counterexample: the single-sensor endpoint does not regenerate.  A
store whose temp1 reading carries the status string broken - which no
generator output ever carries - is returned verbatim by
GET /api/sensors/temp1, and the store is left exactly as it was. -/
theorem lazy_regeneration_counterexample :
    (Simple.get_specific_sensor Simple.storeBroken Simple.SensorId.temp1).2 =
      Simple.storeBroken ∧
    (Simple.get_specific_sensor Simple.storeBroken Simple.SensorId.temp1).1 =
      Simple.storeBroken Simple.SensorId.temp1 ∧
    (Simple.storeBroken Simple.SensorId.temp1).status = "broken" ∧
    (∀ (b : Option ℚ) (noise : ℚ),
      (Simple.generate_sensor_value Simple.SensorId.temp1 b noise).status ≠ "broken") := by
  refine ⟨rfl, rfl, by simp [Simple.storeBroken], ?_⟩
  intro b noise h
  have hstat : (Simple.generate_sensor_value Simple.SensorId.temp1 b noise).status =
      (if |Simple.clampedValue Simple.SensorId.temp1 b noise -
            (Simple.SENSORS Simple.SensorId.temp1).optimal| <
          ((Simple.SENSORS Simple.SensorId.temp1).max -
            (Simple.SENSORS Simple.SensorId.temp1).min) * 0.05
        then "normal" else "warning") := rfl
  rw [hstat] at h
  split_ifs at h <;> simp at h

/-- C9 amended: only GET /api/sensors regenerates sensor state on access
(every sensor, seeded from its stored value, and the response is the
updated store); GET /api/sensors/id and GET /api/alerts read the stored
readings and leave the store unchanged. -/
theorem lazy_regeneration_amended :
    (∀ (store : Simple.Store) (noise : Simple.SensorId → ℚ) (sid : Simple.SensorId),
      (Simple.get_sensor_data store noise).2 sid =
        Simple.generate_sensor_value sid (some ((store sid).value)) (noise sid)) ∧
    (∀ (store : Simple.Store) (noise : Simple.SensorId → ℚ),
      (Simple.get_sensor_data store noise).1 = (Simple.get_sensor_data store noise).2) ∧
    (∀ (store : Simple.Store) (sid : Simple.SensorId),
      Simple.get_specific_sensor store sid = (store sid, store)) ∧
    (∀ (store : Simple.Store) (t : ℤ), (Simple.get_alerts store t).2 = store) :=
  ⟨fun _ _ _ => rfl, fun _ _ => rfl, fun _ _ => rfl, fun _ _ => rfl⟩

/-! Lookup lemmas for the conversation store. -/

/-- Appending a message to one conversation updates exactly that lookup. -/
theorem lookup_appendMessage_self (m : RAG.Conversations) (cid : String)
    (msg : RAG.ChatMessage) :
    RAG.lookupConv (RAG.appendMessage m cid msg) cid =
      (RAG.lookupConv m cid).map (fun l => l ++ [msg]) := by
  induction m with
  | nil => rfl
  | cons p ps ih =>
    obtain ⟨k, v⟩ := p
    by_cases hk : cid = k
    · subst hk
      simp [RAG.appendMessage, RAG.lookupConv, List.lookup_cons]
    · simp only [RAG.appendMessage, RAG.lookupConv, List.map_cons] at ih ⊢
      rw [if_neg (fun h => hk h.symm)]
      simp only [List.lookup_cons, beq_false_of_ne hk]
      exact ih

/-- Appending a message to one conversation leaves every other lookup
unchanged. -/
theorem lookup_appendMessage_other (m : RAG.Conversations) (cid cid2 : String)
    (msg : RAG.ChatMessage) (h : cid2 ≠ cid) :
    RAG.lookupConv (RAG.appendMessage m cid msg) cid2 = RAG.lookupConv m cid2 := by
  induction m with
  | nil => rfl
  | cons p ps ih =>
    obtain ⟨k, v⟩ := p
    by_cases hk : k = cid
    · subst hk
      simp only [RAG.appendMessage, RAG.lookupConv, List.map_cons, eq_self_iff_true] at ih ⊢
      rw [if_pos trivial]
      simp only [List.lookup_cons, beq_false_of_ne h]
      exact ih
    · simp only [RAG.appendMessage, RAG.lookupConv, List.map_cons] at ih ⊢
      rw [if_neg hk]
      by_cases h2 : cid2 = k
      · subst h2
        simp [List.lookup_cons]
      · simp only [List.lookup_cons, beq_false_of_ne h2]
        exact ih

/-- Ensuring a conversation exists makes its lookup the stored history or
the fresh empty list. -/
theorem lookup_ensure_self (m : RAG.Conversations) (cid : String) :
    RAG.lookupConv (RAG.ensureConv m cid) cid =
      some ((RAG.lookupConv m cid).getD []) := by
  unfold RAG.ensureConv
  rcases hm : RAG.lookupConv m cid with _ | l
  · rw [if_neg (by simp [hm])]
    unfold RAG.lookupConv at hm ⊢
    rw [List.lookup_append, hm]
    simp
  · rw [if_pos (by simp [hm]), hm]
    rfl

/-- Ensuring one conversation leaves every other lookup unchanged. -/
theorem lookup_ensure_other (m : RAG.Conversations) (cid cid2 : String)
    (h : cid2 ≠ cid) :
    RAG.lookupConv (RAG.ensureConv m cid) cid2 = RAG.lookupConv m cid2 := by
  unfold RAG.ensureConv
  split
  · rfl
  · unfold RAG.lookupConv
    rw [List.lookup_append]
    simp [List.lookup_cons, beq_false_of_ne h]

/-- After clearing a conversation its lookup is gone. -/
theorem lookup_clear_self (m : RAG.Conversations) (cid : String) :
    RAG.lookupConv (RAG.clear_conversation m cid) cid = none := by
  unfold RAG.clear_conversation
  split
  · rename_i hsome
    unfold RAG.lookupConv
    rw [List.lookup_eq_none_iff]
    intro p hp
    have hmem := List.of_mem_filter hp
    have h2 : p.1 ≠ cid := by simpa using hmem
    simpa using Ne.symm h2
  · rename_i hnone
    rw [Option.not_isSome_iff_eq_none] at hnone
    exact hnone

/-- The history read of a chat call on the same conversation id: the user
message then the assistant message are appended after the prior history. -/
theorem history_chat_self (m : RAG.Conversations) (cid message response : String) :
    RAG.get_conversation_history (RAG.chat_with_plantgpt m cid message response) cid =
      RAG.get_conversation_history m cid ++
        [⟨"user", message⟩, ⟨"assistant", response⟩] := by
  unfold RAG.get_conversation_history RAG.chat_with_plantgpt
  rw [lookup_appendMessage_self, lookup_appendMessage_self, lookup_ensure_self]
  simp

/-- A chat call on one conversation id leaves every other history
unchanged. -/
theorem history_chat_other (m : RAG.Conversations) (cid cid2 message response : String)
    (h : cid2 ≠ cid) :
    RAG.get_conversation_history (RAG.chat_with_plantgpt m cid message response) cid2 =
      RAG.get_conversation_history m cid2 := by
  unfold RAG.get_conversation_history RAG.chat_with_plantgpt
  rw [lookup_appendMessage_other _ _ _ _ h, lookup_appendMessage_other _ _ _ _ h,
    lookup_ensure_other _ _ _ h]

/-- After clear_conversation the history for that id is empty. -/
theorem history_clear_self (m : RAG.Conversations) (cid : String) :
    RAG.get_conversation_history (RAG.clear_conversation m cid) cid = [] := by
  unfold RAG.get_conversation_history
  rw [lookup_clear_self]
  rfl

/-- A run of chat calls on one conversation id appends all its user and
assistant messages in call order. -/
theorem history_runChats (m : RAG.Conversations) (cid : String)
    (pairs : List (String × String)) :
    RAG.get_conversation_history (RAG.runChats m cid pairs) cid =
      RAG.get_conversation_history m cid ++
        pairs.flatMap (fun p => [⟨"user", p.1⟩, ⟨"assistant", p.2⟩]) := by
  induction pairs generalizing m with
  | nil => simp [RAG.runChats]
  | cons p ps ih =>
    have hstep : RAG.runChats m cid (p :: ps) =
        RAG.runChats (RAG.chat_with_plantgpt m cid p.1 p.2) cid ps := rfl
    rw [hstep, ih, history_chat_self]
    simp

/-- C8: the conversation store is append-only and order-preserving: a chat
call appends exactly its user then assistant message to that conversation
and touches no other, clear empties the conversation, and after any run of
chat calls the history is the prior history followed by all appended
messages in call order. -/
theorem conversation_append_only :
    (∀ (m : RAG.Conversations) (cid message response : String),
      RAG.get_conversation_history (RAG.chat_with_plantgpt m cid message response) cid =
        RAG.get_conversation_history m cid ++
          [⟨"user", message⟩, ⟨"assistant", response⟩]) ∧
    (∀ (m : RAG.Conversations) (cid cid2 message response : String), cid2 ≠ cid →
      RAG.get_conversation_history (RAG.chat_with_plantgpt m cid message response) cid2 =
        RAG.get_conversation_history m cid2) ∧
    (∀ (m : RAG.Conversations) (cid : String),
      RAG.get_conversation_history (RAG.clear_conversation m cid) cid = []) ∧
    (∀ (m : RAG.Conversations) (cid : String) (pairs : List (String × String)),
      RAG.get_conversation_history (RAG.runChats m cid pairs) cid =
        RAG.get_conversation_history m cid ++
          pairs.flatMap (fun p => [⟨"user", p.1⟩, ⟨"assistant", p.2⟩])) :=
  ⟨history_chat_self, history_chat_other, history_clear_self, history_runChats⟩

/-- C8 witness: a concrete chat call on conversation c1 leaves conversation
c2 untouched, and two chat calls on c1 from the empty store give exactly
the four messages in call order. -/
theorem conversation_append_only_witness :
    (RAG.get_conversation_history
        (RAG.chat_with_plantgpt ([] : RAG.Conversations) "c1" "hello" "reply") "c2" =
      RAG.get_conversation_history ([] : RAG.Conversations) "c2") ∧
    (RAG.get_conversation_history
        (RAG.runChats ([] : RAG.Conversations) "c1" [("q1", "a1"), ("q2", "a2")]) "c1" =
      RAG.get_conversation_history ([] : RAG.Conversations) "c1" ++
        [⟨"user", "q1"⟩, ⟨"assistant", "a1"⟩, ⟨"user", "q2"⟩, ⟨"assistant", "a2"⟩]) :=
  ⟨conversation_append_only.2.1 [] "c1" "c2" "hello" "reply" (by decide),
   conversation_append_only.2.2.2 [] "c1" [("q1", "a1"), ("q2", "a2")]⟩

/-- C10: for a conversation id that was never created (or was cleared), the
history read returns the empty list rather than failing, and clear succeeds
as a no-op leaving the conversation map unchanged. -/
theorem unknown_conversation_safe (m : RAG.Conversations) (cid : String)
    (h : RAG.lookupConv m cid = none) :
    RAG.get_conversation_history m cid = [] ∧ RAG.clear_conversation m cid = m := by
  constructor
  · unfold RAG.get_conversation_history
    rw [h]
    rfl
  · unfold RAG.clear_conversation
    rw [h]
    rfl

/-- C10 witness: the empty store and an id never created. -/
theorem unknown_conversation_safe_witness :
    RAG.get_conversation_history ([] : RAG.Conversations) "ghost" = [] ∧
    RAG.clear_conversation ([] : RAG.Conversations) "ghost" = [] :=
  unknown_conversation_safe [] "ghost" rfl

end CementAI
